import Mathlib

/-!
Verification of the furniture-store backend's image-similarity service
(`store/services.py`) and conversational product-search pipeline
(`store/views.py`, `store/serializers.py`), shallowly embedded.

External collaborators (the ResNet50 feature extractor, the filesystem,
sklearn's cosine kernel, the OpenAI completion stream, and the stdlib JSON
parser) are modelled as explicit oracle parameters; everything the
repository's own code does with their results is embedded faithfully.
-/

namespace FurnitureStore

/-- Character strings, as lists for decidable substring tests (`icontains`). -/
abbrev Str := List Char

/-- An embedding vector (`features.flatten().tolist()`), exact rationals
standing for the floats. -/
abbrev Feat := List ℚ

/-- Model of a `ProductImage` row: its `is_primary` flag and file field (`none` models a
null/empty — falsy — file field). -/
structure PImage where
  is_primary : Bool
  image : Option String
deriving DecidableEq

/-- Model of a `Product` row, restricted to the fields the verified code paths read.
`category` is the pair (name, slug) of the related `Category` row, `none` for a
null category; `colors` holds the related colors' `hex_code` values. -/
structure Product where
  pid : Nat
  name : Str
  description : Str
  short_description : Str
  category : Option (Str × Str)
  colors : List Str
  is_active : Bool
  is_featured : Bool
  created_at : Nat
  images : List PImage
deriving DecidableEq

/-- External environment of `ImageSimilarityService`: `MEDIA_ROOT`,
`os.path.exists`, and the image-load + ResNet50-inference pipeline
(`load_img`/`img_to_array`/`predict`), which may fail with an exception. -/
structure Env where
  media_root : String
  fileExists : String → Bool
  extractOr : String → Except String Feat

/-- Embedding of `ImageSimilarityService.extract_features`: runs the loading/inference
pipeline and converts any exception into the sentinel `None`. -/
def extract_features (env : Env) (img_path : String) : Option Feat :=
  match env.extractOr img_path with
  | .ok f => some f
  | .error _ => none

/-- Embedding of `product.images.filter(is_primary=True).first()`. -/
def primary_image (p : Product) : Option PImage :=
  p.images.find? (fun i => i.is_primary)

/-- The per-product body of the loop in `get_product_features`:
`if primary_image and primary_image.image:` then join `MEDIA_ROOT` with the
file name, check `os.path.exists`, and call `extract_features`; any failure
(no primary image, falsy file field, missing file, failed extraction)
yields `none`, which the loop skips with `continue`. -/
def productEntry (env : Env) (p : Product) : Option Feat :=
  match primary_image p with
  | some img =>
    match img.image with
    | some name =>
      let image_path := env.media_root ++ name
      if env.fileExists image_path then extract_features env image_path
      else none
    | none => none
  | none => none

/-- The recomputation loop of `get_product_features`: iterate over active
products having a primary image (`Product.objects.filter(is_active=True,
images__is_primary=True)`) and collect `product.id ↦ features` for every
product whose `productEntry` succeeds. Products are assumed listed once each
(primary keys are unique). -/
def computeFeatures (env : Env) (catalog : List Product) : List (Nat × Feat) :=
  (catalog.filter (fun p => p.is_active && p.images.any (fun i => i.is_primary))).filterMap
    (fun p => (productEntry env p).map (fun f => (p.pid, f)))

/-- A live entry of the Django cache under `features_cache_key`: the stored
mapping together with the expiry (seconds) it was stored with. An expired or
absent entry is modelled as `none` at the `Option CacheEntry` call sites. -/
structure CacheEntry where
  value : List (Nat × Feat)
  ttl : Nat
deriving DecidableEq

/-- Embedding of `cache.get(self.features_cache_key)`. -/
def cacheGet (st : Option CacheEntry) : Option (List (Nat × Feat)) :=
  st.map CacheEntry.value

/-- Python truthiness of the value returned by `cache.get`: `None` and the
empty dict are both falsy. -/
def truthyMap (o : Option (List (Nat × Feat))) : Bool :=
  match o with
  | none => false
  | some l => !l.isEmpty

/-- Embedding of `ImageSimilarityService.get_product_features(force_refresh)`: return the
cached mapping when `force_refresh` is false and `if cached_features:` holds
(the cached value is truthy), else recompute and `cache.set(key, m, 3600)`.
Returns the mapping and the new cache state. -/
def get_product_features (env : Env) (force_refresh : Bool) (st : Option CacheEntry)
    (catalog : List Product) : List (Nat × Feat) × Option CacheEntry :=
  if !force_refresh && truthyMap (cacheGet st) then
    ((cacheGet st).getD [], st)
  else
    let m := computeFeatures env catalog
    (m, some ⟨m, 3600⟩)

/-- The ordering realising `similarities.sort(key=lambda x: x['similarity'],
reverse=True)`: `x` may precede `y` iff `y`'s similarity is at most `x`'s.
Python's sort is stable, so it is modelled by the stable `insertionSort`
under this total preorder. -/
abbrev simR (x y : Nat × ℚ) : Prop := y.2 ≤ x.2

/-- Embedding of `ImageSimilarityService.find_similar_products(query_image_path, top_k)`.
`sim` is the external `sklearn.cosine_similarity` kernel; a `none` result
models the per-item `except: continue`. -/
def find_similar_products (env : Env) (sim : Feat → Feat → Option ℚ)
    (st : Option CacheEntry) (catalog : List Product)
    (query_image_path : String) (top_k : Nat) : List (Nat × ℚ) :=
  match extract_features env query_image_path with
  | none => []
  | some q =>
    let pf := (get_product_features env false st catalog).1
    if pf.isEmpty then []
    else
      let sims := pf.filterMap (fun e => (sim q e.2).map (fun s => (e.1, s)))
      (List.insertionSort simR sims).take top_k

/-- Dot product (`np.dot`-style) of two vectors (the numerator of cosine
similarity); trailing entries of the longer vector are ignored, as the
compared embeddings always have equal length. -/
def dotp (a b : List ℚ) : ℚ := (List.zipWith (· * ·) a b).sum

/-- The mathematical content of `sklearn.metrics.pairwise.cosine_similarity`
on one pair of vectors: `dot(a,b) / (|a| * |b|)`, except that sklearn's
`normalize` replaces a zero norm by 1, so the score is 0 (not NaN) when either
vector has zero magnitude. -/
noncomputable def cosineSim (a b : List ℚ) : ℝ :=
  if dotp a a = 0 ∨ dotp b b = 0 then 0
  else (dotp a b : ℝ) / (Real.sqrt ((dotp a a : ℚ) : ℝ) * Real.sqrt ((dotp b b : ℚ) : ℝ))

/-- Python's `needle in hay` test on strings (also the core of `icontains`):
some tail of `hay` starts with `needle`. -/
def containsSub (needle hay : Str) : Bool :=
  hay.tails.any (fun t => needle.isPrefixOf t)

/-- Django's `__icontains` lookup: case-insensitive substring containment. -/
def icontains (hay needle : Str) : Bool :=
  containsSub (needle.map Char.toLower) (hay.map Char.toLower)

/-- The `color` value of the parsed criteria dict: Python's `json.loads` may
produce a string or a list of strings there. -/
inductive ColorVal where
  | str (s : Str)
  | list (l : List Str)
deriving DecidableEq

/-- The criteria dict parsed from the model's JSON, restricted to the keys
`search_products_by_criteria` and the result event read. A missing key is
`none`. -/
structure SearchCriteria where
  product_search : Bool
  message : String
  color : Option ColorVal
  category : Option Str
  ptype : Option Str
deriving DecidableEq

/-- The sentinel `'أي لون'` ("any color") that disables color filtering. -/
def anyColor : Str := "أي لون".toList

/-- Python truthiness of `criteria.get(k)` for a string-valued key. -/
def truthyStr (o : Option Str) : Bool :=
  match o with
  | none => false
  | some s => !s.isEmpty

/-- The guard `if criteria.get('color') and criteria['color'] != 'أي لون':`
(a list value is truthy iff non-empty and is never equal to the sentinel
string). -/
def colorActive (o : Option ColorVal) : Bool :=
  match o with
  | none => false
  | some (.str s) => !s.isEmpty && decide (s ≠ anyColor)
  | some (.list l) => !l.isEmpty

/-- The `type` criterion: `name/description/short_description __icontains`,
OR-combined; vacuous when the key is absent or falsy. -/
def typeFilter (crit : SearchCriteria) (p : Product) : Bool :=
  if truthyStr crit.ptype then
    match crit.ptype with
    | some t =>
      icontains p.name t || icontains p.description t || icontains p.short_description t
    | none => true
  else true

/-- The `category` criterion: `category__name__icontains` or
`category__slug__icontains`; a product without a category matches neither. -/
def categoryFilter (crit : SearchCriteria) (p : Product) : Bool :=
  if truthyStr crit.category then
    match crit.category with
    | some c =>
      match p.category with
      | some cat => icontains cat.1 c || icontains cat.2 c
      | none => false
    | none => true
  else true

/-- The `color` criterion: for a list, the OR of
`available_colors__hex_code__icontains=color` over its elements; for a single
string, the same lookup once. -/
def colorFilter (crit : SearchCriteria) (p : Product) : Bool :=
  if colorActive crit.color then
    match crit.color with
    | some (.str s) => p.colors.any (fun hex => icontains hex s)
    | some (.list l) => l.any (fun c => p.colors.any (fun hex => icontains hex c))
    | none => true
  else true

/-- Sort rank of `-is_featured`: featured products order first. -/
def featRank (p : Product) : Nat := if p.is_featured then 1 else 0

/-- The ordering realising `order_by('-is_featured', '-created_at')`:
`x` may precede `y` iff `x` is featured and `y` is not, or they tie on
featuredness and `x` is at least as new. -/
abbrev prodR (x y : Product) : Prop :=
  featRank y < featRank x ∨ (featRank y = featRank x ∧ y.created_at ≤ x.created_at)

/-- Embedding of `search_products_by_criteria(criteria)`: filter the active catalog by the
three criteria, order featured-first then newest-first (a stable sort under
the `prodR` total preorder), and slice `[:20]`. (The ORM `distinct()` is the
identity here because each product occurs once in the modelled catalog;
serialization to dicts is elided, the products themselves are returned in
response order.) -/
def search_products_by_criteria (crit : SearchCriteria) (catalog : List Product) : List Product :=
  let qs := catalog.filter
    (fun p => p.is_active && typeFilter crit p && categoryFilter crit p && colorFilter crit p)
  (List.insertionSort prodR qs).take 20

/-- One server-sent event of `product_assistant_stream.generate_response`:
the initial `{"type": ...}` frame, a per-fragment `{"chunk": ...}` frame, the
final `{"final_result": "product_search", ...}` frame, or the closing
`{"system": "closed"}` frame. -/
inductive Event where
  | typeEvt (t : String)
  | chunk (s : String)
  | result (message : String) (criteria : SearchCriteria) (productsFound : Nat)
      (products : List Product)
  | closed
deriving DecidableEq

/-- Observable outcome of running the `generate_response` generator to
completion: the events yielded, the `message_type` written by
`save_chat_history` (if any), and whether the generator raised (terminating
the stream after the events already yielded). -/
structure StreamOut where
  events : List Event
  saved : Option String
  raised : Bool
deriving DecidableEq

/-- Embedding of the intent gate
`is_product_search = "product" in pre_response.choices[0].message.content`:
the intent gate on the classifier's one-word reply. -/
def is_product_search_of (preContent : String) : Bool :=
  containsSub "product".toList preContent.toList

/-- Embedding of the `generate_response` generator of `product_assistant_stream`.
`parse` is Python's `json.loads` restricted to the criteria shape (`none`
models `JSONDecodeError`); `preContent` is the intent classifier's reply;
`fragments` are the non-`None` streamed deltas, accumulated into
`full_response`. For product-search intent the fragments are not forwarded
and `json.loads(full_response)` is applied directly — a failure propagates
out of the generator before any result event or history write. -/
def generate_response (parse : String → Option SearchCriteria) (preContent : String)
    (fragments : List String) (catalog : List Product) : StreamOut :=
  let is_product_search := is_product_search_of preContent
  let response_type : String := if is_product_search then "product_search" else "normal_response"
  let full_response := String.join fragments
  if is_product_search then
    match parse full_response with
    | none => ⟨[Event.typeEvt response_type], none, true⟩
    | some crit =>
      let products_found := search_products_by_criteria crit catalog
      ⟨[Event.typeEvt response_type,
        Event.result crit.message crit products_found.length (products_found.take 10),
        Event.closed],
       some "product_search", false⟩
  else
    ⟨Event.typeEvt response_type :: fragments.map Event.chunk ++ [Event.closed],
     some "normal_response", false⟩

/-- HTTP outcome of `ImageSearchView.post`: 400 on serializer failure, 404
when the service returned nothing, otherwise 200 with the scored results. -/
inductive Resp where
  | badRequest (detail : String)
  | notFound
  | ok (results : List (Nat × ℚ)) (total : Nat)
deriving DecidableEq

/-- Embedding of the `ImageSearchSerializer` field
`top_k = IntegerField(default=5, min_value=1, max_value=20)`: absent means 5; out-of-range values fail validation. -/
def validate_top_k (v : Option Int) : Except String Int :=
  match v with
  | none => .ok 5
  | some n => if 1 ≤ n ∧ n ≤ 20 then .ok n else .error "top_k out of range"

/-- Embedding of `ImageSearchView.post`: validate, then run `find_similar_products`; 404 if
it returned an empty list, else keep only items with `similarity >= 0.5` and
answer 200. The boolean records whether inference (`find_similar_products`)
was reached, i.e. whether any expensive work ran. Image-field validation is
orthogonal to the modelled claims and elided. -/
def imageSearchPost (env : Env) (sim : Feat → Feat → Option ℚ) (st : Option CacheEntry)
    (catalog : List Product) (query_path : String) (top_k_param : Option Int) : Resp × Bool :=
  match validate_top_k top_k_param with
  | .error e => (Resp.badRequest e, false)
  | .ok k =>
    let similar := find_similar_products env sim st catalog query_path k.toNat
    if similar.isEmpty then (Resp.notFound, true)
    else
      let results := similar.filter (fun x => decide ((1 : ℚ)/2 ≤ x.2))
      (Resp.ok results results.length, true)

/-! ### Helper lemmas -/

instance : IsTrans (Nat × ℚ) simR where
  trans _ _ _ h1 h2 := le_trans h2 h1

instance : IsTotal (Nat × ℚ) simR where
  total a b := le_total b.2 a.2

instance : IsTrans Product prodR where
  trans a b c h1 h2 := by
    unfold prodR at *
    omega

instance : IsTotal Product prodR where
  total a b := by
    unfold prodR
    omega

theorem dotp_nil : dotp [] [] = 0 := rfl

theorem dotp_cons (x : ℚ) (t : List ℚ) : dotp (x :: t) (x :: t) = x * x + dotp t t := by
  simp [dotp]

theorem dotp_self_nonneg (a : List ℚ) : 0 ≤ dotp a a := by
  induction a with
  | nil => simp [dotp]
  | cons x t ih =>
    rw [dotp_cons]
    have := mul_self_nonneg x
    linarith

theorem dotp_self_eq_zero {a : List ℚ} : dotp a a = 0 ↔ ∀ x ∈ a, x = 0 := by
  induction a with
  | nil => simp [dotp]
  | cons x t ih =>
    rw [dotp_cons]
    constructor
    · intro h y hy
      have h1 := mul_self_nonneg x
      have h2 := dotp_self_nonneg t
      have hx : x * x = 0 := by linarith
      have ht : dotp t t = 0 := by linarith
      rcases List.mem_cons.mp hy with rfl | hy'
      · exact mul_self_eq_zero.mp hx
      · exact ih.mp ht y hy'
    · intro h
      have hx : x = 0 := h x (List.mem_cons_self x t)
      have ht : dotp t t = 0 := ih.mpr (fun y hy => h y (List.mem_cons_of_mem x hy))
      simp [hx, ht]

/-! ### Claims -/

/-- Claim C4. For every query image and cached feature mapping,
`find_similar_products` returns at most `top_k` `(product, similarity)` pairs,
sorted in non-increasing order of similarity, and returns the empty list
whenever feature extraction of the query image fails. -/
theorem find_similar_products_sorted_bounded (env : Env) (sim : Feat → Feat → Option ℚ)
    (st : Option CacheEntry) (catalog : List Product) (qp : String) (k : Nat) :
    (find_similar_products env sim st catalog qp k).length ≤ k ∧
    List.Pairwise (fun x y : Nat × ℚ => y.2 ≤ x.2) (find_similar_products env sim st catalog qp k) ∧
    (extract_features env qp = none → find_similar_products env sim st catalog qp k = []) := by
  refine ⟨?_, ?_, ?_⟩
  · unfold find_similar_products
    cases hq : extract_features env qp with
    | none => simp
    | some q =>
      dsimp only
      split
      · simp
      · simp only [List.length_take]
        exact Nat.min_le_left _ _
  · unfold find_similar_products
    cases hq : extract_features env qp with
    | none => simp
    | some q =>
      dsimp only
      split
      · simp
      · have hs := List.sorted_insertionSort simR
          (((get_product_features env false st catalog).1).filterMap
            (fun e => (sim q e.2).map (fun s => (e.1, s))))
        exact List.Pairwise.sublist (List.take_sublist k _) hs
  · intro h
    simp [find_similar_products, h]

/-- Witness for claim C4. The guarantees evaluated at a concrete request whose query
extraction fails. -/
theorem find_similar_products_sorted_bounded_witness :
    find_similar_products ⟨"", fun _ => false, fun _ => .error "io"⟩ (fun _ _ => none)
      none [] "q" 3 = [] :=
  (find_similar_products_sorted_bounded ⟨"", fun _ => false, fun _ => .error "io"⟩
    (fun _ _ => none) none [] "q" 3).2.2 rfl

/-- Claim C5. The cosine-similarity score equals 1 for any nonzero vector
compared with itself, and equals 0 — it is a total real-valued function, so
never NaN and never an exception — whenever either compared vector has zero
magnitude. -/
theorem cosineSim_self_and_zero (a b : List ℚ) :
    ((∃ x ∈ a, x ≠ 0) → cosineSim a a = 1) ∧
    (((∀ x ∈ a, x = 0) ∨ (∀ x ∈ b, x = 0)) → cosineSim a b = 0) := by
  constructor
  · rintro ⟨x, hx, hx0⟩
    have hz : dotp a a ≠ 0 := by
      intro h
      exact hx0 (dotp_self_eq_zero.mp h x hx)
    have hq0 : (0 : ℝ) ≤ ((dotp a a : ℚ) : ℝ) := by
      exact_mod_cast dotp_self_nonneg a
    rw [cosineSim, if_neg (by simp [hz])]
    rw [Real.mul_self_sqrt hq0]
    exact div_self (by exact_mod_cast hz)
  · intro h
    have hz : dotp a a = 0 ∨ dotp b b = 0 := by
      rcases h with h | h
      · exact Or.inl (dotp_self_eq_zero.mpr h)
      · exact Or.inr (dotp_self_eq_zero.mpr h)
    rw [cosineSim, if_pos hz]

/-- Witness for claim C5. The guarantees evaluated on the concrete vectors `[1]`
(against itself) and `[0]` against `[1]`. -/
theorem cosineSim_self_and_zero_witness :
    cosineSim [(1 : ℚ)] [(1 : ℚ)] = 1 ∧ cosineSim [(0 : ℚ)] [(1 : ℚ)] = 0 :=
  ⟨(cosineSim_self_and_zero [(1 : ℚ)] [(1 : ℚ)]).1 ⟨1, by simp, one_ne_zero⟩,
   (cosineSim_self_and_zero [(0 : ℚ)] [(1 : ℚ)]).2 (Or.inl (by simp))⟩

/-- Concrete environment where every file exists and extraction always
succeeds with the vector `[1]`. -/
def envOk : Env := ⟨"", fun _ => true, fun _ => .ok [1]⟩

/-- Concrete environment where extraction always fails with an I/O error. -/
def envFail : Env := ⟨"", fun _ => false, fun _ => .error "io error"⟩

/-- A concrete active product with a primary image on file. -/
def prodA : Product := ⟨1, [], [], [], none, [], true, false, 0, [⟨true, some "a.jpg"⟩]⟩

/-- A concrete active product with no images at all. -/
def prodNoImg : Product := ⟨2, [], [], [], none, [], true, false, 0, []⟩

/-- Counterexample to claim C6. A cached mapping is present and unexpired — namely
the empty mapping, stored by a refresh that embedded no products — yet
`get_product_features` with `force_refresh=false` does not return it
unchanged: the Python truthiness test `if cached_features:` treats the empty
dict as absent and recomputes, here yielding a non-empty mapping. -/
theorem get_product_features_empty_cache_recomputes :
    cacheGet (some ⟨[], 3600⟩) = some [] ∧
    (get_product_features envOk false (some ⟨[], 3600⟩) [prodA]).1 = [(1, [(1 : ℚ)])] ∧
    (get_product_features envOk false (some ⟨[], 3600⟩) [prodA]).1 ≠ [] := by
  refine ⟨rfl, by decide, by decide⟩

/-- Claim C6 as amended. `get_product_features` with `force_refresh=true` always
recomputes regardless of cache freshness and stores the result with a 1-hour
(3600 s) expiry; with `force_refresh=false` it returns the cached mapping
unchanged whenever a cached mapping is present, unexpired, **and non-empty**
(an empty cached mapping is falsy and triggers recomputation). -/
theorem get_product_features_cache_policy (env : Env) (st : Option CacheEntry)
    (catalog : List Product) :
    (get_product_features env true st catalog =
      (computeFeatures env catalog, some ⟨computeFeatures env catalog, 3600⟩)) ∧
    (∀ m, cacheGet st = some m → m ≠ [] →
      get_product_features env false st catalog = (m, st)) := by
  constructor
  · simp [get_product_features]
  · intro m hm hne
    have hemp : m.isEmpty = false := by
      cases m with
      | nil => exact absurd rfl hne
      | cons x t => rfl
    simp [get_product_features, truthyMap, hm, hemp]

/-- Witness for claim C6. The amended policy evaluated at a concrete non-empty
cached mapping and at a concrete forced refresh. -/
theorem get_product_features_cache_policy_witness :
    get_product_features envOk false (some ⟨[(7, [(2 : ℚ)])], 3600⟩) [] =
      ([(7, [(2 : ℚ)])], some ⟨[(7, [(2 : ℚ)])], 3600⟩) ∧
    get_product_features envOk true (some ⟨[(7, [(2 : ℚ)])], 3600⟩) [] =
      ([], some ⟨[], 3600⟩) :=
  ⟨(get_product_features_cache_policy envOk (some ⟨[(7, [(2 : ℚ)])], 3600⟩) []).2
      [(7, [(2 : ℚ)])] rfl (by decide),
   (get_product_features_cache_policy envOk (some ⟨[(7, [(2 : ℚ)])], 3600⟩) []).1⟩

/-- Claim C7. For every product whose per-item feature pipeline fails (missing
primary image, falsy file field, missing file, or an extraction error),
`get_product_features` completes (it is a total function) and omits that
product from the returned mapping; and `extract_features` returns the
sentinel `none` rather than propagating any I/O or decode error. -/
theorem get_product_features_omits_failures (env : Env) (st : Option CacheEntry)
    (catalog : List Product) (p : Product)
    (hnodup : (catalog.map Product.pid).Nodup) (hp : p ∈ catalog)
    (hfail : productEntry env p = none) :
    (∀ q ∈ (get_product_features env true st catalog).1, q.1 ≠ p.pid) ∧
    (∀ r e, env.extractOr r = .error e → extract_features env r = none) := by
  constructor
  · intro q hq
    have h1 : (get_product_features env true st catalog).1 = computeFeatures env catalog := by
      simp [get_product_features]
    rw [h1] at hq
    unfold computeFeatures at hq
    rw [List.mem_filterMap] at hq
    obtain ⟨p', hp', hf⟩ := hq
    have hp'mem : p' ∈ catalog := List.mem_of_mem_filter hp'
    intro hne
    cases hpe : productEntry env p' with
    | none => rw [hpe] at hf; simp at hf
    | some f =>
      rw [hpe] at hf
      simp only [Option.map_some'] at hf
      have hq' : (p'.pid, f) = q := Option.some.inj hf
      have hpid : p'.pid = p.pid := by
        rw [← hq'] at hne
        exact hne
      have heq : p' = p := List.inj_on_of_nodup_map hnodup hp'mem hp hpid
      rw [heq, hfail] at hpe
      cases hpe
  · intro r e h
    simp [extract_features, h]

/-- Witness for claim C7. The guarantees evaluated at a concrete catalog containing
a product with no primary image, under an environment whose extractor always
raises. -/
theorem get_product_features_omits_failures_witness :
    extract_features envFail "x.jpg" = none :=
  (get_product_features_omits_failures envFail none [prodNoImg] prodNoImg
    (by decide) (by decide) (by decide)).2 "x.jpg" "io error" rfl

/-- A concrete similarity kernel scoring every comparison 3/10 — below the
0.5 response floor. -/
def simLow : Feat → Feat → Option ℚ := fun _ _ => some (3/10)

/-- Counterexample to claim C2. A request on which `find_similar_products` returns
one result and no result clears the 0.5 floor, yet the endpoint does not
answer 404: it answers 200 with an empty results list (the 404 branch only
tests whether the service list itself is empty, before the floor is
applied). -/
theorem imageSearch_below_floor_not_404 :
    find_similar_products envOk simLow none [prodA] "q" 5 = [(1, 3/10)] ∧
    (3 : ℚ)/10 < 1/2 ∧
    (imageSearchPost envOk simLow none [prodA] "q" (some 5)).1 = Resp.ok [] 0 := by
  have h1 : find_similar_products envOk simLow none [prodA] "q" 5 = [(1, 3/10)] := by
    norm_num [find_similar_products, extract_features, envOk, get_product_features,
      truthyMap, cacheGet, computeFeatures, productEntry, primary_image, prodA,
      simLow, List.insertionSort, List.orderedInsert]
    simp
  refine ⟨h1, by norm_num, ?_⟩
  have h5 : find_similar_products envOk simLow none [prodA] "q" (Int.toNat 5) = [(1, 3/10)] := h1
  norm_num [imageSearchPost, validate_top_k, h5, List.filter]

/-- Claim C2 as amended. Every result below the 0.5 floor is absent from the
endpoint's 200 response (whose total equals the kept-results count), and the
endpoint returns the 404 "no results" response exactly when
`find_similar_products` itself returns the empty list — when results exist
but none clears the floor, the endpoint answers 200 with an empty list
instead of 404. -/
theorem imageSearch_floor_and_404 (env : Env) (sim : Feat → Feat → Option ℚ)
    (st : Option CacheEntry) (catalog : List Product) (qp : String) (tk : Option Int) :
    (∀ res tot, (imageSearchPost env sim st catalog qp tk).1 = Resp.ok res tot →
      (∀ x ∈ res, (1 : ℚ)/2 ≤ x.2) ∧ tot = res.length) ∧
    (∀ k, validate_top_k tk = .ok k →
      ((imageSearchPost env sim st catalog qp tk).1 = Resp.notFound ↔
        find_similar_products env sim st catalog qp k.toNat = [])) := by
  unfold imageSearchPost
  cases hv : validate_top_k tk with
  | error e =>
    constructor
    · intro res tot h
      simp at h
    · intro k hk
      cases hk
  | ok k =>
    dsimp only
    constructor
    · intro res tot h
      split at h
      · cases h
      · cases h
        constructor
        · intro x hx
          exact of_decide_eq_true (List.mem_filter.mp hx).2
        · rfl
    · intro k' hk
      cases hk
      split
      · rename_i hemp
        rw [List.isEmpty_iff] at hemp
        simp [hemp]
      · rename_i hemp
        rw [List.isEmpty_iff] at hemp
        simp [hemp]

/-- Witness for claim C2. The amended 404 criterion evaluated at the concrete
below-floor request. -/
theorem imageSearch_floor_and_404_witness :
    (imageSearchPost envOk simLow none [prodA] "q" (some 5)).1 = Resp.notFound ↔
      find_similar_products envOk simLow none [prodA] "q" (Int.toNat 5) = [] :=
  (imageSearch_floor_and_404 envOk simLow none [prodA] "q" (some 5)).2 5 rfl

/-- Claim C10. The image-search `top_k` parameter defaults to 5 when absent, is
accepted exactly when it is an integer between 1 and 20 inclusive, and any
request with `top_k` outside that range is rejected with a validation error
before any inference runs (the second component of `imageSearchPost` records
whether `find_similar_products` was reached). -/
theorem imageSearch_top_k_validation (env : Env) (sim : Feat → Feat → Option ℚ)
    (st : Option CacheEntry) (catalog : List Product) (qp : String) (tk : Option Int) :
    validate_top_k none = .ok 5 ∧
    (∀ n : Int, tk = some n → (n < 1 ∨ 20 < n) →
      imageSearchPost env sim st catalog qp tk =
        (Resp.badRequest "top_k out of range", false)) ∧
    (∀ n : Int, tk = some n → 1 ≤ n → n ≤ 20 →
      validate_top_k tk = .ok n ∧ (imageSearchPost env sim st catalog qp tk).2 = true) := by
  refine ⟨rfl, ?_, ?_⟩
  · intro n h hrange
    subst h
    have hno : ¬(1 ≤ n ∧ n ≤ 20) := by omega
    simp [imageSearchPost, validate_top_k, hno]
  · intro n h h1 h2
    subst h
    have hyes : 1 ≤ n ∧ n ≤ 20 := ⟨h1, h2⟩
    constructor
    · simp [validate_top_k, hyes]
    · simp only [imageSearchPost, validate_top_k, if_pos hyes]
      split <;> rfl

/-- Witness for claim C10. A concrete out-of-range request (`top_k = 21`) rejected
without inference, and a concrete in-range request accepted. -/
theorem imageSearch_top_k_validation_witness :
    imageSearchPost envOk simLow none [] "q" (some 21) =
      (Resp.badRequest "top_k out of range", false) ∧
    validate_top_k (some 7) = .ok 7 :=
  ⟨(imageSearch_top_k_validation envOk simLow none [] "q" (some 21)).2.1 21 rfl
      (Or.inr (by norm_num)),
   ((imageSearch_top_k_validation envOk simLow none [] "q" (some 7)).2.2 7 rfl
      (by norm_num) (by norm_num)).1⟩

/-- A parser stand-in for `json.loads` on input it cannot parse: always
fails. -/
def parseNone : String → Option SearchCriteria := fun _ => none

/-- Claim C1. The claim says a parse failure of the structured model output is
delivered as a general-response fallback; in the code, `json.loads` on the
assembled product-search output is called with no exception handling, so the
generator raises: the stream terminates right after the initial type event —
no chunk events, no result event, no fallback reply, and no history write. -/
theorem generate_response_parse_failure_raises :
    generate_response parseNone "product" ["this is not JSON"] [] =
      ⟨[Event.typeEvt "product_search"], none, true⟩ := by
  rfl

/-- A concrete strict JSON object (braces escaped) and the criteria it
denotes. -/
def jsonObj : String :=
  "\x7b\"product_search\": true, \"message\": \"ok\", \"color\": \"Red\", \"category\": \"Chairs\"\x7d"

/-- The criteria value `json.loads` would produce from `jsonObj`. -/
def critJson : SearchCriteria :=
  ⟨true, "ok", some (ColorVal.str "Red".toList), some "Chairs".toList, none⟩

/-- A stand-in for strict `json.loads` restricted to this session: it
succeeds exactly on the bare JSON object, and fails on any string with
surrounding prose — as the real `json.loads` does. -/
def parseStrict : String → Option SearchCriteria :=
  fun s => if s = jsonObj then some critJson else none

/-- Counterexample to claim C3. The model's output wraps a parseable, balanced
JSON object in extra prose. No pattern-match extraction happens in the code:
`json.loads` receives the full assembled string, fails, and the generator
raises — surrounding text does cause a parse failure. -/
theorem generate_response_no_prose_extraction :
    parseStrict jsonObj = some critJson ∧
    containsSub jsonObj.toList (String.join ["Here you go: ", jsonObj]).toList = true ∧
    (generate_response parseStrict "product" ["Here you go: ", jsonObj] []).raised = true := by
  refine ⟨by simp [parseStrict], by decide, by decide⟩

/-- Claim C3 as amended. The fully assembled structured model output is passed
directly and in full to the JSON parser: when the parser succeeds on the
whole string the structured result is delivered and history saved, and when
it fails — including when the JSON is wrapped in extra prose — the failure is
a hard one (the generator raises); no balanced-object extraction is
performed. -/
theorem generate_response_parses_whole_string (parse : String → Option SearchCriteria)
    (pre : String) (frags : List String) (catalog : List Product)
    (hps : is_product_search_of pre = true) :
    (parse (String.join frags) = none →
      (generate_response parse pre frags catalog).raised = true ∧
      (generate_response parse pre frags catalog).events = [Event.typeEvt "product_search"]) ∧
    (∀ crit, parse (String.join frags) = some crit →
      (generate_response parse pre frags catalog).raised = false ∧
      (generate_response parse pre frags catalog).saved = some "product_search") := by
  constructor
  · intro h
    constructor <;> simp [generate_response, hps, h]
  · intro crit h
    constructor <;> simp [generate_response, hps, h]

/-- Witness for claim C3. The amended behaviour at concrete inputs: the bare JSON
object parses and the turn completes; with prose around it the parse is a
hard failure. -/
theorem generate_response_parses_whole_string_witness :
    (generate_response parseStrict "product" [jsonObj] []).raised = false ∧
    (generate_response parseStrict "product" ["prose ", jsonObj] []).raised = true :=
  ⟨((generate_response_parses_whole_string parseStrict "product" [jsonObj] []
      (by decide)).2 critJson (by decide)).1,
   ((generate_response_parses_whole_string parseStrict "product" ["prose ", jsonObj] []
      (by decide)).1 (by decide)).1⟩

/-- Claim C8. For every set of extracted criteria, the product query is sorted
featured-first with newest-first tie-break and capped at 20, and the
product-search chat result event delivers exactly the first 10 of the capped
list (so at most 10 products reach the caller), alongside the full capped
count. -/
theorem search_sorted_capped_first_ten (crit : SearchCriteria) (catalog : List Product)
    (parse : String → Option SearchCriteria) (pre : String) (frags : List String) :
    (search_products_by_criteria crit catalog).length ≤ 20 ∧
    List.Pairwise (fun x y : Product => featRank y < featRank x ∨
      (featRank y = featRank x ∧ y.created_at ≤ x.created_at))
      (search_products_by_criteria crit catalog) ∧
    (is_product_search_of pre = true →
      parse (String.join frags) = some crit →
      (generate_response parse pre frags catalog).events =
        [Event.typeEvt "product_search",
         Event.result crit.message crit (search_products_by_criteria crit catalog).length
           ((search_products_by_criteria crit catalog).take 10),
         Event.closed] ∧
      ((search_products_by_criteria crit catalog).take 10).length ≤ 10) := by
  refine ⟨?_, ?_, ?_⟩
  · unfold search_products_by_criteria
    simp only [List.length_take]
    exact Nat.min_le_left _ _
  · unfold search_products_by_criteria
    have hs := List.sorted_insertionSort prodR
      (catalog.filter
        (fun p => p.is_active && typeFilter crit p && categoryFilter crit p && colorFilter crit p))
    exact List.Pairwise.sublist (List.take_sublist 20 _) hs
  · intro hps hpr
    constructor
    · simp [generate_response, hps, hpr]
    · simp only [List.length_take]
      exact Nat.min_le_left _ _

/-- A parser stand-in that always yields the criteria of `jsonObj`. -/
def parseAlways : String → Option SearchCriteria := fun _ => some critJson

/-- Witness for claim C8. The delivery format evaluated at a concrete
product-search turn over an empty catalog. -/
theorem search_sorted_capped_first_ten_witness :
    (generate_response parseAlways "product" ["x"] []).events =
      [Event.typeEvt "product_search",
       Event.result critJson.message critJson (search_products_by_criteria critJson []).length
         ((search_products_by_criteria critJson []).take 10),
       Event.closed] :=
  ((search_sorted_capped_first_ten critJson [] parseAlways "product" ["x"]).2.2
    (by decide) rfl).1

/-- Recogniser for per-fragment chunk events. -/
def isChunkEvt : Event → Bool
  | .chunk _ => true
  | _ => false

/-- Recogniser for the final structured result event. -/
def isResultEvt : Event → Bool
  | .result _ _ _ _ => true
  | _ => false

/-- Claim C9. In every streamed chat response, when intent is general each
incoming text fragment is forwarded to the client as an individually framed
chunk event, in order; when intent is product-search no per-fragment event is
ever emitted, and (when the structured output parses) exactly one final
structured result event reaches the caller. -/
theorem stream_fragment_forwarding (parse : String → Option SearchCriteria)
    (pre : String) (frags : List String) (catalog : List Product) :
    (is_product_search_of pre = false →
      (generate_response parse pre frags catalog).events =
        Event.typeEvt "normal_response" :: frags.map Event.chunk ++ [Event.closed]) ∧
    (is_product_search_of pre = true →
      ((generate_response parse pre frags catalog).events.filter isChunkEvt = [] ∧
       (∀ crit, parse (String.join frags) = some crit →
         ((generate_response parse pre frags catalog).events.filter isResultEvt).length = 1))) := by
  constructor
  · intro h
    simp [generate_response, h]
  · intro h
    constructor
    · cases hp : parse (String.join frags) with
      | none => simp [generate_response, h, hp, isChunkEvt]
      | some crit => simp [generate_response, h, hp, isChunkEvt]
    · intro crit hp
      simp [generate_response, h, hp, isResultEvt]

/-- Witness for claim C9. The forwarding behaviour at a concrete general-intent
turn and a concrete product-search turn. -/
theorem stream_fragment_forwarding_witness :
    (generate_response parseAlways "general chat" ["a", "b"] []).events =
      Event.typeEvt "normal_response" ::
        [("a" : String), "b"].map Event.chunk ++ [Event.closed] ∧
    (generate_response parseAlways "product" ["a", "b"] []).events.filter isChunkEvt = [] :=
  ⟨(stream_fragment_forwarding parseAlways "general chat" ["a", "b"] []).1 (by decide),
   ((stream_fragment_forwarding parseAlways "product" ["a", "b"] []).2 (by decide)).1⟩

end FurnitureStore
